import Mathlib

/-
  Verification development for the prepzo_user_portal subscription core.

  Shallow embedding of:
  - app/userPortal/subscription/helpers.py
      get_first_day_of_month, get_last_day_of_month, get_next_period,
      handle_period_rollover, check_and_use_feature, require_authentication
  - app/userPortal/subscription/routes.py
      stripe_webhook (checkout.session.completed, invoice.payment_succeeded,
      invoice.payment_failed, customer.subscription.deleted branches)

  The persistent store (Supabase/PostgREST tables user_subscriptions,
  subscription_plans, feature_usage) is modelled as lists of rows; each
  PostgREST call (select/insert/update/upsert) becomes an explicit pure
  operation on that state.  Timestamp bookkeeping columns (updated_at)
  are omitted: no claim under verification mentions them.
-/

namespace Prepzo

/-! ## Calendar dates (Python datetime.date / calendar.monthrange) -/

structure PDate where
  year : Nat
  month : Nat
  day : Nat
deriving DecidableEq

/-- Gregorian leap-year rule used by Python calendar.isleap. -/
def isLeapYear (y : Nat) : Bool :=
  decide ((y % 4 = 0 ∧ y % 100 ≠ 0) ∨ y % 400 = 0)

/-- calendar.monthrange(y, m)[1] : number of days in the month. -/
def monthLength (y m : Nat) : Nat :=
  if m = 2 then (if isLeapYear y then 29 else 28)
  else if m = 4 ∨ m = 6 ∨ m = 9 ∨ m = 11 then 30
  else 31

/-- A structurally valid calendar date. -/
def PDate.Valid (d : PDate) : Prop :=
  1 ≤ d.month ∧ d.month ≤ 12 ∧ 1 ≤ d.day ∧ d.day ≤ monthLength d.year d.month

instance (d : PDate) : Decidable d.Valid := by
  unfold PDate.Valid
  infer_instance

/-- Chronological key: for valid dates, comparison of keys coincides with
    Python date comparison. -/
def dateKey (d : PDate) : Nat :=
  d.year * 10000 + d.month * 100 + d.day

/-- Strict date order, as used by the rollover test (today > period_end). -/
def dateLt (a b : PDate) : Bool :=
  decide (dateKey a < dateKey b)

/-- date + timedelta(days=1). -/
def nextDay (d : PDate) : PDate :=
  if d.day < monthLength d.year d.month then ⟨d.year, d.month, d.day + 1⟩
  else if d.month < 12 then ⟨d.year, d.month + 1, 1⟩
  else ⟨d.year + 1, 1, 1⟩

/-- helpers.get_first_day_of_month : dt.replace(day=1). -/
def get_first_day_of_month (d : PDate) : PDate :=
  ⟨d.year, d.month, 1⟩

/-- helpers.get_last_day_of_month : dt.replace(day=monthrange(...)[1]). -/
def get_last_day_of_month (d : PDate) : PDate :=
  ⟨d.year, d.month, monthLength d.year d.month⟩

/-- helpers.get_next_period : start of the month containing period_end + 1 day,
    and the last day of that same month. -/
def get_next_period (current_period_end : PDate) : PDate × PDate :=
  let next_period_start := get_first_day_of_month (nextDay current_period_end)
  (next_period_start, get_last_day_of_month next_period_start)

lemma monthLength_bounds (y m : Nat) :
    28 ≤ monthLength y m ∧ monthLength y m ≤ 31 := by
  unfold monthLength
  split
  · split <;> omega
  · split <;> omega

/-- The rolled-over period end is chronologically strictly later than the
    expired period end. -/
lemma next_period_end_advances (e : PDate) (h : e.Valid) :
    dateKey e < dateKey (get_next_period e).2 := by
  obtain ⟨hm1, hm12, hd1, hdml⟩ := h
  have hb := monthLength_bounds e.year e.month
  have hb3 := monthLength_bounds e.year (e.month + 1)
  have hb4 := monthLength_bounds (e.year + 1) 1
  unfold get_next_period nextDay get_first_day_of_month get_last_day_of_month dateKey
  split_ifs with hlt hm <;> simp only [] <;> omega

/-- The rolled-over period end always lands on the last day of its month. -/
lemma next_period_end_is_month_end (e : PDate) :
    (get_next_period e).2.day
      = monthLength (get_next_period e).2.year (get_next_period e).2.month := by
  unfold get_next_period get_first_day_of_month get_last_day_of_month
  rfl

/-! ## Billing ledger store (Supabase tables, modelled as lists of rows) -/

/-- The three metered features of check_and_use_feature call sites. -/
inductive Feature where
  | resume
  | linkedin_optimize
  | cover_letter
deriving DecidableEq

/-- Row of the user_subscriptions table. -/
structure SubRow where
  id : Nat
  user_id : String
  plan_id : Nat
  status : String
  display_name : String
  stripe_customer_id : Option String
  stripe_subscription_id : Option String
  next_billing_date : Option PDate
  current_period_start : PDate
  current_period_end : PDate
deriving DecidableEq

/-- Row of the subscription_plans table (per-feature monthly limits). -/
structure PlanRow where
  id : Nat
  resume_limit_per_month : Nat
  linkedin_optimize_limit_per_month : Nat
  cover_letter_limit_per_month : Nat
deriving DecidableEq

/-- Row of the feature_usage table (per-feature consumption counters). -/
structure UsageRow where
  id : Nat
  user_id : String
  plan_id : Nat
  period_start : PDate
  period_end : PDate
  resume_count : Nat
  linkedin_optimize_count : Nat
  cover_letter_count : Nat
  display_name : String
deriving DecidableEq

/-- usage_record.get(feature_name + "_count", 0) or 0. -/
def UsageRow.countOf (r : UsageRow) : Feature → Nat
  | Feature.resume => r.resume_count
  | Feature.linkedin_optimize => r.linkedin_optimize_count
  | Feature.cover_letter => r.cover_letter_count

/-- Write of the feature_name + "_count" column. -/
def UsageRow.setCount (r : UsageRow) : Feature → Nat → UsageRow
  | Feature.resume, v => { r with resume_count := v }
  | Feature.linkedin_optimize, v => { r with linkedin_optimize_count := v }
  | Feature.cover_letter, v => { r with cover_letter_count := v }

/-- plan.get(feature_name + "_limit_per_month", 0) or 0. -/
def PlanRow.limitOf (p : PlanRow) : Feature → Nat
  | Feature.resume => p.resume_limit_per_month
  | Feature.linkedin_optimize => p.linkedin_optimize_limit_per_month
  | Feature.cover_letter => p.cover_letter_limit_per_month

/-- The billing ledger store.  next_sub_id / next_usage_id model the
    database-assigned primary keys of freshly inserted rows. -/
structure DB where
  user_subscriptions : List SubRow
  subscription_plans : List PlanRow
  feature_usage : List UsageRow
  next_sub_id : Nat
  next_usage_id : Nat
deriving DecidableEq

/-! ## Quota engine (helpers.handle_period_rollover, check_and_use_feature) -/

/-- helpers.handle_period_rollover: if today > current_period_end, update the
    user_subscriptions row keyed by its id with the next period dates. -/
def handle_period_rollover (today : PDate) (db : DB) (sub : SubRow) : DB :=
  if dateLt sub.current_period_end today then
    let p := get_next_period sub.current_period_end
    { db with user_subscriptions :=
        db.user_subscriptions.map (fun r =>
          if r.id == sub.id then
            { r with current_period_start := p.1, current_period_end := p.2 }
          else r) }
  else db

/-- The default free-tier subscription row inserted by check_and_use_feature
    when no row exists: plan_id 1, status free, period = current calendar
    month (date.today().replace(day=1) .. get_last_day_of_month(today)). -/
def newFreeSub (rowId : Nat) (uid display_name : String) (today : PDate) : SubRow :=
  { id := rowId
    user_id := uid
    plan_id := 1
    status := "free"
    display_name := display_name
    stripe_customer_id := none
    stripe_subscription_id := none
    next_billing_date := none
    current_period_start := ⟨today.year, today.month, 1⟩
    current_period_end := get_last_day_of_month today }

/-- Steps 1 and 2 of check_and_use_feature: fetch the subscription by
    user_id; if found, run the rollover and refetch; if absent, insert the
    default free row (insert returns the new row). -/
def resolveSub (today : PDate) (uid display_name : String) (db : DB) : SubRow × DB :=
  match db.user_subscriptions.find? (fun r => r.user_id == uid) with
  | some sub =>
    let db1 := handle_period_rollover today db sub
    match db1.user_subscriptions.find? (fun r => r.user_id == uid) with
    | some sub1 => (sub1, db1)
    | none =>
      let row := newFreeSub db1.next_sub_id uid display_name today
      (row, { db1 with user_subscriptions := db1.user_subscriptions ++ [row]
                       next_sub_id := db1.next_sub_id + 1 })
  | none =>
    let row := newFreeSub db.next_sub_id uid display_name today
    (row, { db with user_subscriptions := db.user_subscriptions ++ [row]
                    next_sub_id := db.next_sub_id + 1 })

/-- The all-zero feature_usage row inserted when none matches the current
    period. -/
def zeroUsage (rowId : Nat) (uid : String) (plan_id : Nat) (ps pe : PDate)
    (display_name : String) : UsageRow :=
  { id := rowId
    user_id := uid
    plan_id := plan_id
    period_start := ps
    period_end := pe
    resume_count := 0
    linkedin_optimize_count := 0
    cover_letter_count := 0
    display_name := display_name }

/-- Step 3: fetch the feature_usage row by (user_id, period_start,
    period_end); create it with zero counters if absent. -/
def resolveUsage (uid display_name : String) (plan_id : Nat) (ps pe : PDate)
    (db : DB) : UsageRow × DB :=
  match db.feature_usage.find? (fun r =>
      r.user_id == uid && decide (r.period_start = ps)
        && decide (r.period_end = pe)) with
  | some u => (u, db)
  | none =>
    let row := zeroUsage db.next_usage_id uid plan_id ps pe display_name
    (row, { db with feature_usage := db.feature_usage ++ [row]
                    next_usage_id := db.next_usage_id + 1 })

/-- Outcome of the pre-check block of check_and_use_feature (everything
    before the decorated function runs). -/
inductive PreResult where
  | err (code : Nat) (db : DB)
  | deny (plan_limit : Nat) (current_usage : Nat) (db : DB)
  | allow (usage_id : Nat) (current_usage : Nat) (plan_limit : Nat) (db : DB)
deriving DecidableEq

/-- Steps 1 to 5 of check_and_use_feature: resolve subscription (with
    rollover), plan, usage row, then the quota test. -/
def precheck (feature : Feature) (increment_by : Nat) (today : PDate)
    (uid display_name : String) (db : DB) : PreResult :=
  let sdb := resolveSub today uid display_name db
  let sub := sdb.1
  let db1 := sdb.2
  match db1.subscription_plans.find? (fun p => p.id == sub.plan_id) with
  | none => PreResult.err 500 db1
  | some plan =>
    let udb := resolveUsage uid display_name sub.plan_id
        sub.current_period_start sub.current_period_end db1
    let usage_record := udb.1
    let db2 := udb.2
    let current_usage := usage_record.countOf feature
    let plan_limit := plan.limitOf feature
    if current_usage + increment_by > plan_limit then
      PreResult.deny plan_limit current_usage db2
    else
      PreResult.allow usage_record.id current_usage plan_limit db2

/-- Response value returned by the decorator. -/
inductive GateResp where
  | errBody (code : Nat)
  | quotaExceeded (feature : Feature) (plan_limit : Nat) (current_usage : Nat)
  | fromBody (tag : Nat)
deriving DecidableEq

/-- Step 7: the post-success commit.  An update of the feature counter
    keyed on the feature_usage row id, writing the absolute value
    current_usage + increment_by. -/
def commitUsage (db : DB) (usage_id : Nat) (feature : Feature) (v : Nat) : DB :=
  { db with feature_usage :=
      db.feature_usage.map (fun r =>
        if r.id == usage_id then r.setCount feature v else r) }

/-- helpers.check_and_use_feature: the full decorator pipeline.  The
    decorated function is the body argument, returning (response tag,
    status_code, store after the body ran). -/
def check_and_use_feature (feature : Feature) (increment_by : Nat)
    (today : PDate) (uid display_name : String)
    (body : DB → Nat × Nat × DB) (db : DB) : GateResp × Nat × DB :=
  match precheck feature increment_by today uid display_name db with
  | PreResult.err c db1 => (GateResp.errBody c, c, db1)
  | PreResult.deny plan_limit current_usage db1 =>
    (GateResp.quotaExceeded feature plan_limit current_usage, 429, db1)
  | PreResult.allow usage_id current_usage _plan_limit db1 =>
    let out := body db1
    let status_code := out.2.1
    let db2 := out.2.2
    if 200 ≤ status_code ∧ status_code < 300 then
      (GateResp.fromBody out.1, status_code,
        commitUsage db2 usage_id feature (current_usage + increment_by))
    else
      (GateResp.fromBody out.1, status_code, db2)

/-! ## Webhook reconciler (routes.stripe_webhook) -/

/-- Parsed Stripe event payloads, after construct_event succeeded.
    For checkout.session.completed, the retrieved field is the outcome of
    stripe.Subscription.retrieve inside the try block: some provider period
    on success, none when that call raised. -/
inductive StripeEvent where
  | checkoutSessionCompleted (client_reference_id : Option String)
      (customer : Option String) (subscription : Option String)
      (retrieved : Option (PDate × PDate))
  | invoicePaymentSucceeded (customer : Option String)
      (subscription : Option String) (period_start period_end : PDate)
  | invoicePaymentFailed (subscription : Option String)
  | customerSubscriptionDeleted (customer : String)
  | otherEvent
deriving DecidableEq

/-- PostgREST .single(): raises APIError unless exactly one row matches. -/
def singleRow (l : List SubRow) : Option SubRow :=
  match l with
  | [x] => some x
  | _ => none

/-- Upsert into feature_usage with on_conflict user_id,period_start,period_end:
    updates plan_id and display_name of the matching row, otherwise inserts
    a fresh row (counters at their column default 0). -/
def upsert_feature_usage (db : DB) (uid : String) (ps pe : PDate)
    (plan_id : Nat) (display_name : String) : DB :=
  match db.feature_usage.find? (fun r =>
      r.user_id == uid && decide (r.period_start = ps)
        && decide (r.period_end = pe)) with
  | some _ =>
    { db with feature_usage :=
        db.feature_usage.map (fun r =>
          if r.user_id == uid && decide (r.period_start = ps)
              && decide (r.period_end = pe) then
            { r with plan_id := plan_id, display_name := display_name }
          else r) }
  | none =>
    let row := zeroUsage db.next_usage_id uid plan_id ps pe display_name
    { db with feature_usage := db.feature_usage ++ [row]
              next_usage_id := db.next_usage_id + 1 }

/-- Plain insert into feature_usage.  The table carries a unique constraint
    on (user_id, period_start, period_end) — the code's own upserts declare
    exactly that on_conflict target — so a duplicate insert raises an
    APIError, modelled as the error case. -/
def insert_feature_usage (db : DB) (uid : String) (plan_id : Nat)
    (ps pe : PDate) (display_name : String) : Except String DB :=
  match db.feature_usage.find? (fun r =>
      r.user_id == uid && decide (r.period_start = ps)
        && decide (r.period_end = pe)) with
  | some _ => Except.error ("duplicate key value violates unique constraint")
  | none =>
    let row := zeroUsage db.next_usage_id uid plan_id ps pe display_name
    Except.ok { db with feature_usage := db.feature_usage ++ [row]
                        next_usage_id := db.next_usage_id + 1 }

/-- The checkout.session.completed branch.  Lines 232 to 234 of routes.py
    read the provider period inside a try block, but lines 237 and 238 sit
    at the enclosing indentation level and run unconditionally, overwriting
    period_start and period_end in every case — the retrieved value is
    therefore discarded.  paid_plan_id is the hardcoded 2. -/
def apply_checkout_completed (db : DB) (today : PDate)
    (client_reference_id customer subscription : Option String)
    (retrieved : Option (PDate × PDate)) (display_name : String) : DB :=
  match client_reference_id with
  | none => db
  | some uid =>
    let _provider_period := retrieved
    let period_start := today
    let period_end := get_last_day_of_month today
    let updFields := fun (r : SubRow) =>
      { r with plan_id := 2
               status := "active"
               stripe_subscription_id := subscription
               stripe_customer_id := customer
               current_period_start := period_start
               current_period_end := period_end
               next_billing_date := some period_end }
    let db1 :=
      match db.user_subscriptions.find? (fun r => r.user_id == uid) with
      | some _ =>
        { db with user_subscriptions :=
            db.user_subscriptions.map (fun r =>
              if r.user_id == uid then updFields r else r) }
      | none =>
        let base : SubRow :=
          { id := db.next_sub_id
            user_id := uid
            plan_id := 2
            status := "active"
            display_name := display_name
            stripe_customer_id := customer
            stripe_subscription_id := subscription
            next_billing_date := some period_end
            current_period_start := period_start
            current_period_end := period_end }
        { db with user_subscriptions := db.user_subscriptions ++ [updFields base]
                  next_sub_id := db.next_sub_id + 1 }
    upsert_feature_usage db1 uid period_start period_end 2 display_name

/-- The per-row update the invoice.payment_succeeded branch writes through
    the update keyed on the subscription row id. -/
def invoiceSubUpdate (subscription : Option String) (inv_ps inv_pe : PDate)
    (r : SubRow) : SubRow :=
  { r with current_period_start := inv_ps
           current_period_end := inv_pe
           next_billing_date := some inv_pe
           stripe_subscription_id := subscription
           status := "active" }

/-- The invoice.payment_succeeded branch once the customer ref is present.
    .single() raises when no subscription matches the customer ref; the
    usage insert is a plain insert (no on_conflict), so a duplicate raises
    as well.  Errors here propagate out of the handler uncaught. -/
def apply_invoice_paid_known_customer (db : DB) (cid : String)
    (subscription : Option String) (inv_ps inv_pe : PDate)
    (display_name : String) : Except String DB :=
  match singleRow (db.user_subscriptions.filter
      (fun r => r.stripe_customer_id == some cid)) with
  | none => Except.error ("JSON object requested, multiple (or no) rows returned")
  | some sub =>
    let db1 := { db with user_subscriptions :=
        db.user_subscriptions.map (fun r =>
          if r.id == sub.id then invoiceSubUpdate subscription inv_ps inv_pe r
          else r) }
    insert_feature_usage db1 sub.user_id 2 inv_ps inv_pe display_name

/-- The invoice.payment_succeeded branch: guarded by if customer_id. -/
def apply_invoice_payment_succeeded (db : DB)
    (customer subscription : Option String) (inv_ps inv_pe : PDate)
    (display_name : String) : Except String DB :=
  match customer with
  | none => Except.ok db
  | some cid =>
    apply_invoice_paid_known_customer db cid subscription inv_ps inv_pe display_name

/-- The invoice.payment_failed branch: set status past_due on the rows
    matching the stripe_subscription_id. -/
def apply_invoice_payment_failed (db : DB) (subscription : Option String) : DB :=
  { db with user_subscriptions :=
      db.user_subscriptions.map (fun r =>
        if r.stripe_subscription_id == subscription then
          { r with status := "past_due" }
        else r) }

/-- The customer.subscription.deleted branch: maybe_single on the customer
    ref; if found, update the row keyed by id to the free plan with the
    current calendar month as period.  The update dict does not name
    stripe_customer_id, so that column keeps its value. -/
def apply_subscription_deleted (db : DB) (today : PDate)
    (customer : String) : DB :=
  match db.user_subscriptions.find?
      (fun r => r.stripe_customer_id == some customer) with
  | none => db
  | some sub =>
    let period_start : PDate := ⟨today.year, today.month, 1⟩
    let period_end := get_last_day_of_month today
    { db with user_subscriptions :=
        db.user_subscriptions.map (fun r =>
          if r.id == sub.id then
            { r with plan_id := 1
                     stripe_subscription_id := none
                     status := "active"
                     current_period_start := period_start
                     current_period_end := period_end
                     next_billing_date := none }
          else r) }

/-- routes.stripe_webhook.  sig_result models construct_event: error for a
    bad signature or payload (handler returns 400).  The branch bodies have
    no surrounding try/except, so an APIError raised while applying an
    event propagates out of the handler (the Except.error case, which Flask
    turns into a 500) instead of reaching the final 200 acknowledgment. -/
def stripe_webhook (sig_result : Except String StripeEvent) (db : DB)
    (today : PDate) (display_name : String) : Except String (Nat × DB) :=
  match sig_result with
  | Except.error _ => Except.ok (400, db)
  | Except.ok ev =>
    match ev with
    | StripeEvent.checkoutSessionCompleted uid cust subid retr =>
      Except.ok (200, apply_checkout_completed db today uid cust subid retr display_name)
    | StripeEvent.invoicePaymentSucceeded cust subid ps pe =>
      match apply_invoice_payment_succeeded db cust subid ps pe display_name with
      | Except.error e => Except.error e
      | Except.ok db1 => Except.ok (200, db1)
    | StripeEvent.invoicePaymentFailed subid =>
      Except.ok (200, apply_invoice_payment_failed db subid)
    | StripeEvent.customerSubscriptionDeleted cust =>
      Except.ok (200, apply_subscription_deleted db today cust)
    | StripeEvent.otherEvent => Except.ok (200, db)

/-! ## Authentication decorator (helpers.require_authentication) -/

/-- The incoming HTTP request as seen by the decorator. -/
structure AuthRequest where
  method : String
  origin : Option String
  auth_header : Option String
deriving DecidableEq

/-- The verified principal returned by the identity provider. -/
structure AuthUser where
  uid : String
  full_name : Option String
  name : Option String
deriving DecidableEq

/-- Outcome of extensions.supabase.auth.get_user(jwt_token). -/
inductive GetUserOutcome where
  | ok (user : AuthUser)
  | noUser
  | authApiError
  | apiError (status : Nat)
  | otherError
deriving DecidableEq

/-- An HTTP reply: status, headers, and an abstract body tag. -/
structure HttpReply where
  status : Nat
  headers : List (String × String)
  bodyTag : Nat
deriving DecidableEq

/-- The headers added to the hand-built CORS preflight response. -/
def corsHeaders (origin : Option String) : List (String × String) :=
  (match origin with
   | some o => [("Access-Control-Allow-Origin", o)]
   | none => []) ++
  [("Access-Control-Allow-Headers", "Content-Type,Authorization"),
   ("Access-Control-Allow-Methods", "GET,POST,PUT,DELETE,OPTIONS,PATCH"),
   ("Access-Control-Allow-Credentials", "true")]

/-- helpers.require_authentication: OPTIONS short-circuit, header shape
    checks, identity-provider call, then the wrapped handler on success. -/
def require_authentication (getUser : String → GetUserOutcome)
    (handler : AuthUser → HttpReply) (req : AuthRequest) : HttpReply :=
  if req.method = "OPTIONS" then
    { status := 200, headers := corsHeaders req.origin, bodyTag := 0 }
  else
    let auth_header := req.auth_header.getD ""
    if ¬ auth_header.startsWith ("Bearer ") then
      { status := 401, headers := [], bodyTag := 1 }
    else
      let jwt_token := auth_header.drop 7
      if jwt_token = "" ∨ (jwt_token.splitOn (".")).length ≠ 3 then
        { status := 401, headers := [], bodyTag := 2 }
      else
        match getUser jwt_token with
        | GetUserOutcome.ok user => handler user
        | GetUserOutcome.noUser => { status := 500, headers := [], bodyTag := 5 }
        | GetUserOutcome.authApiError => { status := 401, headers := [], bodyTag := 3 }
        | GetUserOutcome.apiError s => { status := s, headers := [], bodyTag := 4 }
        | GetUserOutcome.otherError => { status := 500, headers := [], bodyTag := 5 }

/-! ## Structural lemmas about the store operations -/

lemma handle_period_rollover_feature_usage (today : PDate) (db : DB) (sub : SubRow) :
    (handle_period_rollover today db sub).feature_usage = db.feature_usage := by
  unfold handle_period_rollover
  split <;> rfl

lemma handle_period_rollover_plans (today : PDate) (db : DB) (sub : SubRow) :
    (handle_period_rollover today db sub).subscription_plans = db.subscription_plans := by
  unfold handle_period_rollover
  split <;> rfl

lemma resolveSub_feature_usage (today : PDate) (uid nm : String) (db : DB) :
    (resolveSub today uid nm db).2.feature_usage = db.feature_usage := by
  unfold resolveSub
  cases hfind : db.user_subscriptions.find? (fun r => r.user_id == uid) with
  | none => rfl
  | some sub =>
    have hfu := handle_period_rollover_feature_usage today db sub
    cases hfind2 : (handle_period_rollover today db sub).user_subscriptions.find?
        (fun r => r.user_id == uid) <;> simp [hfind2, hfu]

lemma resolveSub_plans (today : PDate) (uid nm : String) (db : DB) :
    (resolveSub today uid nm db).2.subscription_plans = db.subscription_plans := by
  unfold resolveSub
  cases hfind : db.user_subscriptions.find? (fun r => r.user_id == uid) with
  | none => rfl
  | some sub =>
    have hpl := handle_period_rollover_plans today db sub
    cases hfind2 : (handle_period_rollover today db sub).user_subscriptions.find?
        (fun r => r.user_id == uid) <;> simp [hfind2, hpl]

lemma resolveUsage_user_subscriptions (uid nm : String) (plan_id : Nat)
    (ps pe : PDate) (db : DB) :
    (resolveUsage uid nm plan_id ps pe db).2.user_subscriptions = db.user_subscriptions := by
  unfold resolveUsage
  split <;> rfl

/-- The usage table after resolveUsage: unchanged, or extended by one
    all-zero row. -/
lemma resolveUsage_feature_usage (uid nm : String) (plan_id : Nat)
    (ps pe : PDate) (db : DB) :
    (resolveUsage uid nm plan_id ps pe db).2.feature_usage = db.feature_usage
    ∨ ∃ z : UsageRow, z.resume_count = 0 ∧ z.linkedin_optimize_count = 0
        ∧ z.cover_letter_count = 0
        ∧ (resolveUsage uid nm plan_id ps pe db).2.feature_usage
            = db.feature_usage ++ [z] := by
  unfold resolveUsage
  split
  · exact Or.inl rfl
  · exact Or.inr ⟨zeroUsage db.next_usage_id uid plan_id ps pe nm, rfl, rfl, rfl, rfl⟩

lemma commitUsage_user_subscriptions (db : DB) (usage_id : Nat)
    (feature : Feature) (v : Nat) :
    (commitUsage db usage_id feature v).user_subscriptions = db.user_subscriptions := rfl

/-- The pre-check never mutates an existing usage counter: the usage table
    it leaves behind is the one it found, possibly extended by a single
    freshly created all-zero row. -/
def countersUntouched (db db2 : DB) : Prop :=
  db2.feature_usage = db.feature_usage
  ∨ ∃ z : UsageRow, z.resume_count = 0 ∧ z.linkedin_optimize_count = 0
      ∧ z.cover_letter_count = 0 ∧ db2.feature_usage = db.feature_usage ++ [z]

/-! ## Claim C9: OPTIONS preflight bypasses authentication -/

/-- Claim C9: for an OPTIONS request, require_authentication produces a
    200 CORS response; the result never depends on the Authorization
    header, on the identity provider, or on the wrapped handler, so none
    of them is consulted. -/
theorem options_preflight_bypasses_auth
    (getUser1 getUser2 : String → GetUserOutcome)
    (handler1 handler2 : AuthUser → HttpReply)
    (req : AuthRequest) (a2 : Option String)
    (hm : req.method = "OPTIONS") :
    require_authentication getUser1 handler1 req
      = { status := 200, headers := corsHeaders req.origin, bodyTag := 0 }
    ∧ require_authentication getUser2 handler2 { req with auth_header := a2 }
      = require_authentication getUser1 handler1 req := by
  constructor
  · unfold require_authentication
    simp [hm]
  · unfold require_authentication
    simp [hm]

/-- Witness for C9 at a concrete OPTIONS request. -/
theorem options_preflight_bypasses_auth_witness :
    (AuthRequest.mk "OPTIONS" (some "http://localhost") (some "Bearer a.b.c")).method
        = "OPTIONS"
    ∧ (require_authentication (fun _ => GetUserOutcome.otherError)
          (fun _ => { status := 200, headers := [], bodyTag := 9 })
          (AuthRequest.mk "OPTIONS" (some "http://localhost") (some "Bearer a.b.c"))
        = { status := 200
            headers := corsHeaders (some "http://localhost")
            bodyTag := 0 }
      ∧ require_authentication (fun _ => GetUserOutcome.noUser)
          (fun _ => { status := 204, headers := [], bodyTag := 8 })
          { AuthRequest.mk "OPTIONS" (some "http://localhost") (some "Bearer a.b.c") with
              auth_header := none }
        = require_authentication (fun _ => GetUserOutcome.otherError)
            (fun _ => { status := 200, headers := [], bodyTag := 9 })
            (AuthRequest.mk "OPTIONS" (some "http://localhost") (some "Bearer a.b.c"))) :=
  ⟨rfl, options_preflight_bypasses_auth
    (fun _ => GetUserOutcome.otherError) (fun _ => GetUserOutcome.noUser)
    (fun _ => { status := 200, headers := [], bodyTag := 9 })
    (fun _ => { status := 204, headers := [], bodyTag := 8 })
    (AuthRequest.mk "OPTIONS" (some "http://localhost") (some "Bearer a.b.c"))
    none rfl⟩

/-! ## Claim C3: period rollover -/

/-- Modelled from the spec: the period the claim asserts after rollover,
    literally the first day of the calendar month following the month of
    the expired period end, and the last day of that following month.  For
    comparison against the implemented get_next_period. -/
def specNextPeriod (e : PDate) : PDate × PDate :=
  let s : PDate := if e.month < 12 then ⟨e.year, e.month + 1, 1⟩ else ⟨e.year + 1, 1, 1⟩
  (s, get_last_day_of_month s)

def c3Sub : SubRow :=
  { id := 7
    user_id := "u3"
    plan_id := 2
    status := "active"
    display_name := "D"
    stripe_customer_id := some "cus_3"
    stripe_subscription_id := some "sub_3"
    next_billing_date := some ⟨2025, 1, 15⟩
    current_period_start := ⟨2024, 12, 16⟩
    current_period_end := ⟨2025, 1, 15⟩ }

def c3DB : DB :=
  { user_subscriptions := [c3Sub]
    subscription_plans := []
    feature_usage := []
    next_sub_id := 8
    next_usage_id := 1 }

/-- Counterexample to C3 as stated: a subscription whose period ended
    mid-month (2025-01-15, a Stripe-style anniversary date), seen on
    2025-01-20.  The code rolls the period to [2025-01-01, 2025-01-31] —
    the month containing the day after the expired end — while the claim
    prescribes [2025-02-01, 2025-02-28], the month following the expired
    end; nor is an advance from Jan 15 to Jan 31 a whole-month increment. -/
theorem rollover_following_month_counterexample :
    dateLt c3Sub.current_period_end ⟨2025, 1, 20⟩ = true
    ∧ (handle_period_rollover ⟨2025, 1, 20⟩ c3DB c3Sub).user_subscriptions.map
        (fun r => (r.current_period_start, r.current_period_end))
      = [(⟨2025, 1, 1⟩, ⟨2025, 1, 31⟩)]
    ∧ specNextPeriod c3Sub.current_period_end = (⟨2025, 2, 1⟩, ⟨2025, 2, 28⟩)
    ∧ ((⟨2025, 1, 1⟩ : PDate), (⟨2025, 1, 31⟩ : PDate)) ≠ (⟨2025, 2, 1⟩, ⟨2025, 2, 28⟩) := by
  decide

/-- Claim C3 as amended: when today is strictly after the period end, the
    rollover updates the row in place to [first day of the month containing
    the day after the expired end, last day of that month]; the period end
    strictly advances and always lands on a calendar month boundary; when
    the expired end was itself a month end this coincides with the claim's
    following-calendar-month formula.  When today is not strictly after the
    period end, nothing changes. -/
theorem rollover_amended (today : PDate) (db : DB) (sub : SubRow)
    (hv : sub.current_period_end.Valid) :
    (dateLt sub.current_period_end today = false →
      handle_period_rollover today db sub = db)
    ∧ (dateLt sub.current_period_end today = true →
      (handle_period_rollover today db sub).user_subscriptions
        = db.user_subscriptions.map (fun r =>
            if r.id == sub.id then
              { r with current_period_start := (get_next_period sub.current_period_end).1
                       current_period_end := (get_next_period sub.current_period_end).2 }
            else r)
      ∧ dateKey sub.current_period_end
          < dateKey (get_next_period sub.current_period_end).2
      ∧ (get_next_period sub.current_period_end).2.day
          = monthLength (get_next_period sub.current_period_end).2.year
              (get_next_period sub.current_period_end).2.month
      ∧ (sub.current_period_end.day
            = monthLength sub.current_period_end.year sub.current_period_end.month →
          get_next_period sub.current_period_end
            = specNextPeriod sub.current_period_end)) := by
  constructor
  · intro hno
    unfold handle_period_rollover
    rw [hno]
    simp
  · intro hyes
    refine ⟨?_, next_period_end_advances sub.current_period_end hv, ?_, ?_⟩
    · unfold handle_period_rollover
      rw [hyes]
      simp
    · exact next_period_end_is_month_end sub.current_period_end
    · intro hend
      obtain ⟨hm1, hm12, hd1, hdml⟩ := hv
      unfold get_next_period nextDay get_first_day_of_month get_last_day_of_month specNextPeriod
      have hnlt : ¬ sub.current_period_end.day
          < monthLength sub.current_period_end.year sub.current_period_end.month := by
        omega
      by_cases hm : sub.current_period_end.month < 12
      · simp [hnlt, hm, get_last_day_of_month]
      · simp [hnlt, hm, get_last_day_of_month]

def c3wSub : SubRow :=
  { id := 9
    user_id := "u3w"
    plan_id := 1
    status := "free"
    display_name := "D"
    stripe_customer_id := none
    stripe_subscription_id := none
    next_billing_date := none
    current_period_start := ⟨2025, 1, 1⟩
    current_period_end := ⟨2025, 1, 31⟩ }

def c3wDB : DB :=
  { user_subscriptions := [c3wSub]
    subscription_plans := []
    feature_usage := []
    next_sub_id := 10
    next_usage_id := 1 }

/-- Witness for the amended C3, at a month-end period end seen the next day. -/
theorem rollover_amended_witness :
    (c3wSub.current_period_end.Valid)
    ∧ ((dateLt c3wSub.current_period_end ⟨2025, 2, 1⟩ = false →
          handle_period_rollover ⟨2025, 2, 1⟩ c3wDB c3wSub = c3wDB)
      ∧ (dateLt c3wSub.current_period_end ⟨2025, 2, 1⟩ = true →
          (handle_period_rollover ⟨2025, 2, 1⟩ c3wDB c3wSub).user_subscriptions
            = c3wDB.user_subscriptions.map (fun r =>
                if r.id == c3wSub.id then
                  { r with current_period_start := (get_next_period c3wSub.current_period_end).1
                           current_period_end := (get_next_period c3wSub.current_period_end).2 }
                else r)
          ∧ dateKey c3wSub.current_period_end
              < dateKey (get_next_period c3wSub.current_period_end).2
          ∧ (get_next_period c3wSub.current_period_end).2.day
              = monthLength (get_next_period c3wSub.current_period_end).2.year
                  (get_next_period c3wSub.current_period_end).2.month
          ∧ (c3wSub.current_period_end.day
                = monthLength c3wSub.current_period_end.year c3wSub.current_period_end.month →
              get_next_period c3wSub.current_period_end
                = specNextPeriod c3wSub.current_period_end))) :=
  ⟨by decide, rollover_amended ⟨2025, 2, 1⟩ c3wDB c3wSub (by decide)⟩

/-! ## Claim C4: checkout-completed period source -/

def c4DB : DB :=
  { user_subscriptions := []
    subscription_plans := []
    feature_usage := []
    next_sub_id := 1
    next_usage_id := 1 }

/-- Claim C4, evaluated at the failing input: a checkout.session.completed
    event whose stripe.Subscription.retrieve succeeded with the provider
    period [2025-03-10, 2025-04-10], processed on 2025-06-05.  Because
    lines 237 and 238 of routes.py run unconditionally, the stored period
    is the locally computed [2025-06-05, 2025-06-30], not the provider
    period: the local fallback is applied even when the authoritative
    period was retrieved. -/
theorem checkout_overwrites_provider_period :
    ((apply_checkout_completed c4DB ⟨2025, 6, 5⟩ (some "u4") (some "cus_4")
        (some "sub_4") (some (⟨2025, 3, 10⟩, ⟨2025, 4, 10⟩)) "D").user_subscriptions.map
        (fun r => (r.current_period_start, r.current_period_end)))
      = [(⟨2025, 6, 5⟩, ⟨2025, 6, 30⟩)]
    ∧ ((⟨2025, 6, 5⟩ : PDate), (⟨2025, 6, 30⟩ : PDate))
        ≠ ((⟨2025, 3, 10⟩ : PDate), (⟨2025, 4, 10⟩ : PDate)) := by
  decide

/-! ## Claim C8: subscription-deleted downgrade -/

def c8Sub : SubRow :=
  { id := 3
    user_id := "u8"
    plan_id := 2
    status := "active"
    display_name := "D"
    stripe_customer_id := some "cus_8"
    stripe_subscription_id := some "sub_8"
    next_billing_date := some ⟨2025, 8, 31⟩
    current_period_start := ⟨2025, 8, 1⟩
    current_period_end := ⟨2025, 8, 31⟩ }

def c8DB : DB :=
  { user_subscriptions := [c8Sub]
    subscription_plans := []
    feature_usage := []
    next_sub_id := 4
    next_usage_id := 1 }

/-- Counterexample to C8 as stated: applying customer.subscription.deleted
    for cus_8 clears stripe_subscription_id but leaves stripe_customer_id
    in place — the update dict never names that column — so the claim that
    both payment references are cleared fails. -/
theorem subscription_deleted_keeps_customer_ref :
    ((apply_subscription_deleted c8DB ⟨2025, 9, 10⟩ "cus_8").user_subscriptions.map
        (fun r => (r.stripe_customer_id, r.stripe_subscription_id)))
      = [(some "cus_8", none)]
    ∧ (some "cus_8") ≠ (none : Option String) := by
  decide

/-- Claim C8 as amended: the event downgrades the matching row to plan_id 1,
    clears the payment-subscription ref and the next billing date, sets
    status active, and resets the period to the current calendar month —
    but it retains the payment-customer ref unchanged on every row. -/
theorem subscription_deleted_amended (db : DB) (today : PDate)
    (cust : String) (sub : SubRow)
    (hfind : db.user_subscriptions.find?
        (fun r => r.stripe_customer_id == some cust) = some sub) :
    apply_subscription_deleted db today cust
      = { db with user_subscriptions :=
            db.user_subscriptions.map (fun r =>
              if r.id == sub.id then
                { r with plan_id := 1
                         stripe_subscription_id := none
                         status := "active"
                         current_period_start := ⟨today.year, today.month, 1⟩
                         current_period_end := get_last_day_of_month today
                         next_billing_date := none }
              else r) }
    ∧ (apply_subscription_deleted db today cust).user_subscriptions.map
        (fun r => r.stripe_customer_id)
      = db.user_subscriptions.map (fun r => r.stripe_customer_id) := by
  have h1 : apply_subscription_deleted db today cust
      = { db with user_subscriptions :=
            db.user_subscriptions.map (fun r =>
              if r.id == sub.id then
                { r with plan_id := 1
                         stripe_subscription_id := none
                         status := "active"
                         current_period_start := ⟨today.year, today.month, 1⟩
                         current_period_end := get_last_day_of_month today
                         next_billing_date := none }
              else r) } := by
    unfold apply_subscription_deleted
    rw [hfind]
  refine ⟨h1, ?_⟩
  rw [h1]
  simp only [List.map_map]
  apply List.map_congr_left
  intro r _
  by_cases hid : (r.id == sub.id)
  · simp [Function.comp, hid]
  · simp [Function.comp, hid]

/-- Witness for the amended C8 at a concrete store. -/
theorem subscription_deleted_amended_witness :
    (c8DB.user_subscriptions.find?
        (fun r => r.stripe_customer_id == some "cus_8") = some c8Sub)
    ∧ (apply_subscription_deleted c8DB ⟨2025, 9, 10⟩ "cus_8"
        = { c8DB with user_subscriptions :=
              c8DB.user_subscriptions.map (fun r =>
                if r.id == c8Sub.id then
                  { r with plan_id := 1
                           stripe_subscription_id := none
                           status := "active"
                           current_period_start := ⟨2025, 9, 1⟩
                           current_period_end := get_last_day_of_month ⟨2025, 9, 10⟩
                           next_billing_date := none }
                else r) }
      ∧ (apply_subscription_deleted c8DB ⟨2025, 9, 10⟩ "cus_8").user_subscriptions.map
          (fun r => r.stripe_customer_id)
        = c8DB.user_subscriptions.map (fun r => r.stripe_customer_id)) :=
  ⟨by decide, subscription_deleted_amended c8DB ⟨2025, 9, 10⟩ "cus_8" c8Sub (by decide)⟩



/-! ## Claim C5: webhook acknowledgment on internal errors -/

def c5DB : DB :=
  { user_subscriptions := []
    subscription_plans := []
    feature_usage := []
    next_sub_id := 1
    next_usage_id := 1 }

/-- Counterexample to C5 as stated: a signature-verified, well-formed
    invoice.payment_succeeded event whose customer ref matches no local
    subscription makes .single() raise; no surrounding try/except exists in
    the handler, so the exception propagates (a 5xx), instead of the
    claimed 200 acknowledgment. -/
theorem webhook_exception_not_acknowledged :
    stripe_webhook (Except.ok (StripeEvent.invoicePaymentSucceeded
        (some "cus_x") (some "sub_x") ⟨2025, 7, 1⟩ ⟨2025, 7, 31⟩)) c5DB ⟨2025, 7, 2⟩ "D"
      = Except.error ("JSON object requested, multiple (or no) rows returned")
    ∧ ∀ db2 : DB, (Except.error ("JSON object requested, multiple (or no) rows returned")
        : Except String (Nat × DB)) ≠ Except.ok (200, db2) :=
  ⟨rfl, fun db2 h => Except.noConfusion h⟩

/-- Claim C5 as amended: signature or payload failure is rejected with 400;
    checkout-completed, invoice-payment-failed, subscription-deleted and
    unrecognized events are acknowledged with 200 (write failures in those
    branches are absorbed); but an exception while applying an invoice-paid
    event propagates out of the handler uncaught rather than being
    acknowledged. -/
theorem webhook_ack_amended (db : DB) (today : PDate) (nm s : String)
    (ev : StripeEvent)
    (hnotinv : ∀ cust subid ps pe,
      ev ≠ StripeEvent.invoicePaymentSucceeded cust subid ps pe) :
    stripe_webhook (Except.error s) db today nm = Except.ok (400, db)
    ∧ ∃ db2, stripe_webhook (Except.ok ev) db today nm = Except.ok (200, db2) := by
  constructor
  · rfl
  · cases ev with
    | checkoutSessionCompleted uid cust subid retr =>
      exact ⟨apply_checkout_completed db today uid cust subid retr nm, rfl⟩
    | invoicePaymentSucceeded cust subid ps pe =>
      exact absurd rfl (hnotinv cust subid ps pe)
    | invoicePaymentFailed subid =>
      exact ⟨apply_invoice_payment_failed db subid, rfl⟩
    | customerSubscriptionDeleted cust =>
      exact ⟨apply_subscription_deleted db today cust, rfl⟩
    | otherEvent => exact ⟨db, rfl⟩

/-- Witness for the amended C5 at a concrete non-invoice event. -/
theorem webhook_ack_amended_witness :
    (∀ cust subid ps pe, StripeEvent.otherEvent
        ≠ StripeEvent.invoicePaymentSucceeded cust subid ps pe)
    ∧ (stripe_webhook (Except.error "bad signature") c5DB ⟨2025, 7, 2⟩ "D"
          = Except.ok (400, c5DB)
      ∧ ∃ db2, stripe_webhook (Except.ok StripeEvent.otherEvent) c5DB ⟨2025, 7, 2⟩ "D"
          = Except.ok (200, db2)) :=
  ⟨fun cust subid ps pe h => StripeEvent.noConfusion h,
    webhook_ack_amended c5DB ⟨2025, 7, 2⟩ "D" "bad signature" StripeEvent.otherEvent
      (fun cust subid ps pe h => StripeEvent.noConfusion h)⟩

/-! ## Claim C6: invoice-paid renewal -/

lemma filter_map_of_pred_invariant (l : List SubRow) (f : SubRow → SubRow)
    (p : SubRow → Bool) (h : ∀ r, p (f r) = p r) :
    (l.map f).filter p = (l.filter p).map f := by
  induction l with
  | nil => rfl
  | cons a t ih =>
    by_cases hp : p a
    · simp [List.filter_cons, h a, hp, ih]
    · simp [List.filter_cons, h a, hp, ih]

/-- Inserting a usage row for a period nobody recorded yet succeeds and
    appends that row. -/
lemma insert_feature_usage_fresh (db : DB) (uid : String) (plan_id : Nat)
    (ps pe : PDate) (nm : String)
    (h : db.feature_usage.find? (fun r =>
        r.user_id == uid && decide (r.period_start = ps)
          && decide (r.period_end = pe)) = none) :
    insert_feature_usage db uid plan_id ps pe nm
      = Except.ok { db with feature_usage := db.feature_usage ++ [zeroUsage db.next_usage_id uid plan_id ps pe nm]
                            next_usage_id := db.next_usage_id + 1 } := by
  unfold insert_feature_usage
  rw [h]

/-- Inserting a usage row for an already-recorded period raises. -/
lemma insert_feature_usage_dup (db : DB) (uid : String) (plan_id : Nat)
    (ps pe : PDate) (nm : String)
    (h : ∃ z ∈ db.feature_usage, (z.user_id == uid && decide (z.period_start = ps)
          && decide (z.period_end = pe)) = true) :
    insert_feature_usage db uid plan_id ps pe nm
      = Except.error ("duplicate key value violates unique constraint") := by
  unfold insert_feature_usage
  obtain ⟨z, hz, hpz⟩ := h
  cases hfind : db.feature_usage.find? (fun r =>
      r.user_id == uid && decide (r.period_start = ps)
        && decide (r.period_end = pe)) with
  | none =>
    rw [List.find?_eq_none] at hfind
    exact absurd hpz (by simpa using hfind z hz)
  | some w => rfl

/-- The store the invoice-paid branch produces on its success path:
    subscription row advanced in place, one zero-counter usage row
    appended. -/
def invoicePaidResult (db : DB) (subid : Option String) (ps pe : PDate)
    (nm : String) (sub : SubRow) : DB :=
  let row := zeroUsage db.next_usage_id sub.user_id 2 ps pe nm
  let subs := db.user_subscriptions.map (fun r =>
    if r.id == sub.id then invoiceSubUpdate subid ps pe r else r)
  { db with user_subscriptions := subs
            feature_usage := db.feature_usage ++ [row]
            next_usage_id := db.next_usage_id + 1 }

/-- With a usage row for the invoice period already present, the branch
    raises on its plain insert. -/
lemma invoice_dup_error (db : DB) (cid : String) (subid : Option String)
    (ps pe : PDate) (nm : String) (s : SubRow)
    (hfil : db.user_subscriptions.filter
        (fun r => r.stripe_customer_id == some cid) = [s])
    (hus : ∃ z ∈ db.feature_usage,
        (z.user_id == s.user_id && decide (z.period_start = ps)
          && decide (z.period_end = pe)) = true) :
    apply_invoice_paid_known_customer db cid subid ps pe nm
      = Except.error ("duplicate key value violates unique constraint") := by
  unfold apply_invoice_paid_known_customer
  rw [hfil]
  exact insert_feature_usage_dup _ _ _ _ _ _ hus

def c6Sub : SubRow :=
  { id := 1
    user_id := "u6"
    plan_id := 2
    status := "active"
    display_name := "D"
    stripe_customer_id := some "cus_6"
    stripe_subscription_id := some "sub_6"
    next_billing_date := some ⟨2025, 7, 31⟩
    current_period_start := ⟨2025, 7, 1⟩
    current_period_end := ⟨2025, 7, 31⟩ }

def c6DB1 : DB :=
  { user_subscriptions := [c6Sub]
    subscription_plans := []
    feature_usage := [zeroUsage 5 "u6" 2 ⟨2025, 7, 1⟩ ⟨2025, 7, 31⟩ "D"]
    next_sub_id := 2
    next_usage_id := 6 }

/-- Counterexample to C6 as stated: c6DB1 is a store where the invoice
    period [2025-07-01, 2025-07-31] has already been applied (subscription
    advanced, UsagePeriod present).  Re-delivering the same invoice-paid
    event does not skip the creation: the plain insert hits the uniqueness
    constraint and raises, so the duplicate delivery is not a no-op 200. -/
theorem invoice_paid_duplicate_not_noop :
    stripe_webhook (Except.ok (StripeEvent.invoicePaymentSucceeded
        (some "cus_6") (some "sub_6") ⟨2025, 7, 1⟩ ⟨2025, 7, 31⟩)) c6DB1 ⟨2025, 7, 2⟩ "D"
      = Except.error ("duplicate key value violates unique constraint")
    ∧ (Except.error ("duplicate key value violates unique constraint")
        : Except String (Nat × DB)) ≠ Except.ok (200, c6DB1) :=
  ⟨rfl, fun h => Except.noConfusion h⟩

/-- Claim C6 as amended: with exactly one subscription matching the
    customer ref and no UsagePeriod for the provider period yet, the event
    advances that row to the provider period, sets status active, stores
    the payment-subscription ref, and appends one zero-counter UsagePeriod;
    but the creation is an unconditional insert, so re-applying the same
    event to the resulting store raises instead of being a no-op. -/
theorem invoice_paid_amended (db : DB) (cid : String) (subid : Option String)
    (ps pe : PDate) (nm : String) (sub : SubRow)
    (hfilter : db.user_subscriptions.filter
        (fun r => r.stripe_customer_id == some cid) = [sub])
    (hnousage : db.feature_usage.find? (fun r =>
        r.user_id == sub.user_id && decide (r.period_start = ps)
          && decide (r.period_end = pe)) = none) :
    apply_invoice_payment_succeeded db (some cid) subid ps pe nm
      = Except.ok (invoicePaidResult db subid ps pe nm sub)
    ∧ ∀ db1, apply_invoice_payment_succeeded db (some cid) subid ps pe nm
          = Except.ok db1 →
        apply_invoice_payment_succeeded db1 (some cid) subid ps pe nm
          = Except.error ("duplicate key value violates unique constraint") := by
  have h1 : apply_invoice_payment_succeeded db (some cid) subid ps pe nm
      = Except.ok (invoicePaidResult db subid ps pe nm sub) := by
    show apply_invoice_paid_known_customer db cid subid ps pe nm
      = Except.ok (invoicePaidResult db subid ps pe nm sub)
    unfold apply_invoice_paid_known_customer
    rw [hfilter]
    exact insert_feature_usage_fresh _ _ _ _ _ _ hnousage
  refine ⟨h1, ?_⟩
  intro db1 hdb1
  rw [h1] at hdb1
  injection hdb1 with h2
  subst h2
  show apply_invoice_paid_known_customer (invoicePaidResult db subid ps pe nm sub)
      cid subid ps pe nm
    = Except.error ("duplicate key value violates unique constraint")
  have hp : ∀ r : SubRow,
      ((if r.id == sub.id then invoiceSubUpdate subid ps pe r else r).stripe_customer_id
          == some cid)
        = (r.stripe_customer_id == some cid) := by
    intro r
    by_cases hid : (r.id == sub.id) <;> simp [hid, invoiceSubUpdate]
  apply invoice_dup_error _ _ _ _ _ _ (invoiceSubUpdate subid ps pe sub)
  · show (db.user_subscriptions.map (fun r =>
        if r.id == sub.id then invoiceSubUpdate subid ps pe r else r)).filter
        (fun r => r.stripe_customer_id == some cid)
      = [invoiceSubUpdate subid ps pe sub]
    rw [filter_map_of_pred_invariant _ _ _ hp, hfilter]
    simp
  · refine ⟨zeroUsage db.next_usage_id sub.user_id 2 ps pe nm, ?_, ?_⟩
    · show zeroUsage db.next_usage_id sub.user_id 2 ps pe nm
        ∈ db.feature_usage ++ [zeroUsage db.next_usage_id sub.user_id 2 ps pe nm]
      exact List.mem_append_right _ (List.mem_singleton.mpr rfl)
    · simp [zeroUsage, invoiceSubUpdate]

def c6Sub0 : SubRow :=
  { id := 1
    user_id := "u6"
    plan_id := 2
    status := "active"
    display_name := "D"
    stripe_customer_id := some "cus_6"
    stripe_subscription_id := some "sub_6"
    next_billing_date := some ⟨2025, 6, 30⟩
    current_period_start := ⟨2025, 6, 1⟩
    current_period_end := ⟨2025, 6, 30⟩ }

def c6DB0 : DB :=
  { user_subscriptions := [c6Sub0]
    subscription_plans := []
    feature_usage := []
    next_sub_id := 2
    next_usage_id := 5 }

/-- Witness for the amended C6: first delivery succeeds and appends the
    July usage row, second delivery raises. -/
theorem invoice_paid_amended_witness :
    (c6DB0.user_subscriptions.filter
        (fun r => r.stripe_customer_id == some "cus_6") = [c6Sub0]
      ∧ c6DB0.feature_usage.find? (fun r =>
          r.user_id == c6Sub0.user_id && decide (r.period_start = (⟨2025, 7, 1⟩ : PDate))
            && decide (r.period_end = (⟨2025, 7, 31⟩ : PDate))) = none)
    ∧ (apply_invoice_payment_succeeded c6DB0 (some "cus_6") (some "sub_6")
          ⟨2025, 7, 1⟩ ⟨2025, 7, 31⟩ "D"
        = Except.ok (invoicePaidResult c6DB0 (some "sub_6") ⟨2025, 7, 1⟩ ⟨2025, 7, 31⟩ "D" c6Sub0)
      ∧ ∀ db1, apply_invoice_payment_succeeded c6DB0 (some "cus_6") (some "sub_6")
            ⟨2025, 7, 1⟩ ⟨2025, 7, 31⟩ "D" = Except.ok db1 →
          apply_invoice_payment_succeeded db1 (some "cus_6") (some "sub_6")
            ⟨2025, 7, 1⟩ ⟨2025, 7, 31⟩ "D"
            = Except.error ("duplicate key value violates unique constraint")) :=
  ⟨⟨by decide, rfl⟩,
    invoice_paid_amended c6DB0 "cus_6" (some "sub_6") ⟨2025, 7, 1⟩ ⟨2025, 7, 31⟩ "D" c6Sub0
      (by decide) rfl⟩

/-! ## Claim C1: quota denial -/

/-- Claim C1: when the usage read by the pre-check plus the increment
    exceeds the plan limit, the gated request is denied with 429 carrying
    exactly the limit and usage used in the comparison, the deferred body
    is never invoked (the result is identical for every body), and no
    usage counter is mutated (the usage table is at most extended by the
    single zero-counter row the pre-check may have created). -/
theorem quota_denied_no_body_no_increment (feature : Feature) (increment_by : Nat)
    (today : PDate) (uid nm : String) (db db1 db2 : DB)
    (sub : SubRow) (plan : PlanRow) (u : UsageRow)
    (hsub : resolveSub today uid nm db = (sub, db1))
    (hplan : db1.subscription_plans.find? (fun p => p.id == sub.plan_id) = some plan)
    (husage : resolveUsage uid nm sub.plan_id sub.current_period_start
        sub.current_period_end db1 = (u, db2))
    (hover : u.countOf feature + increment_by > plan.limitOf feature) :
    (∀ body, check_and_use_feature feature increment_by today uid nm body db
        = (GateResp.quotaExceeded feature (plan.limitOf feature) (u.countOf feature),
            429, db2))
    ∧ countersUntouched db db2 := by
  have hpre : precheck feature increment_by today uid nm db
      = PreResult.deny (plan.limitOf feature) (u.countOf feature) db2 := by
    simp only [precheck, hsub, hplan, husage, hover, if_true]
  constructor
  · intro body
    simp only [check_and_use_feature, hpre]
  · have hsf := resolveSub_feature_usage today uid nm db
    rw [hsub] at hsf
    have hru := resolveUsage_feature_usage uid nm sub.plan_id
        sub.current_period_start sub.current_period_end db1
    rw [husage] at hru
    cases hru with
    | inl h => exact Or.inl (h.trans hsf)
    | inr h =>
      obtain ⟨z, hz1, hz2, hz3, hz4⟩ := h
      exact Or.inr ⟨z, hz1, hz2, hz3, by rw [hz4, hsf]⟩

def c1Plan : PlanRow :=
  { id := 1
    resume_limit_per_month := 3
    linkedin_optimize_limit_per_month := 5
    cover_letter_limit_per_month := 5 }

def c1Sub : SubRow :=
  { id := 1
    user_id := "u1"
    plan_id := 1
    status := "free"
    display_name := "D"
    stripe_customer_id := none
    stripe_subscription_id := none
    next_billing_date := none
    current_period_start := ⟨2025, 7, 1⟩
    current_period_end := ⟨2025, 7, 31⟩ }

def c1Usage : UsageRow :=
  { id := 2
    user_id := "u1"
    plan_id := 1
    period_start := ⟨2025, 7, 1⟩
    period_end := ⟨2025, 7, 31⟩
    resume_count := 3
    linkedin_optimize_count := 0
    cover_letter_count := 0
    display_name := "D" }

def c1DB : DB :=
  { user_subscriptions := [c1Sub]
    subscription_plans := [c1Plan]
    feature_usage := [c1Usage]
    next_sub_id := 3
    next_usage_id := 3 }

/-- Witness for C1: resume usage 3 of limit 3, increment 1, denied. -/
theorem quota_denied_witness :
    (resolveSub ⟨2025, 7, 10⟩ "u1" "D" c1DB = (c1Sub, c1DB)
      ∧ c1DB.subscription_plans.find? (fun p => p.id == c1Sub.plan_id) = some c1Plan
      ∧ resolveUsage "u1" "D" c1Sub.plan_id c1Sub.current_period_start
          c1Sub.current_period_end c1DB = (c1Usage, c1DB)
      ∧ c1Usage.countOf Feature.resume + 1 > c1Plan.limitOf Feature.resume)
    ∧ ((∀ body, check_and_use_feature Feature.resume 1 ⟨2025, 7, 10⟩ "u1" "D" body c1DB
        = (GateResp.quotaExceeded Feature.resume (c1Plan.limitOf Feature.resume)
            (c1Usage.countOf Feature.resume), 429, c1DB))
      ∧ countersUntouched c1DB c1DB) :=
  ⟨⟨by decide, by decide, by decide, by decide⟩,
    quota_denied_no_body_no_increment Feature.resume 1 ⟨2025, 7, 10⟩ "u1" "D"
      c1DB c1DB c1DB c1Sub c1Plan c1Usage (by decide) (by decide) (by decide) (by decide)⟩

/-! ## Claim C2: commit on success only -/

/-- Claim C2: once the pre-check allowed the request, the usage counter is
    written — via an update keyed on the feature_usage row id, to the
    pre-check usage plus the increment — exactly when the body status code
    satisfies 200 <= status_code < 300; otherwise the store the body left
    behind is returned untouched.  Rows with a different id are never
    affected by the commit. -/
theorem commit_on_success_only (feature : Feature) (increment_by : Nat)
    (today : PDate) (uid nm : String) (db db1 : DB)
    (usage_id current_usage plan_limit : Nat)
    (hpre : precheck feature increment_by today uid nm db
        = PreResult.allow usage_id current_usage plan_limit db1)
    (body : DB → Nat × Nat × DB) (tag sc : Nat) (db2 : DB)
    (hbody : body db1 = (tag, sc, db2)) :
    (200 ≤ sc ∧ sc < 300 →
      check_and_use_feature feature increment_by today uid nm body db
        = (GateResp.fromBody tag, sc,
            commitUsage db2 usage_id feature (current_usage + increment_by)))
    ∧ (¬(200 ≤ sc ∧ sc < 300) →
      check_and_use_feature feature increment_by today uid nm body db
        = (GateResp.fromBody tag, sc, db2))
    ∧ ∀ r, r ∈ db2.feature_usage → (r.id == usage_id) = false →
        r ∈ (commitUsage db2 usage_id feature (current_usage + increment_by)).feature_usage := by
  refine ⟨?_, ?_, ?_⟩
  · intro h
    simp only [check_and_use_feature, hpre, hbody]
    rw [if_pos h]
  · intro h
    simp only [check_and_use_feature, hpre, hbody]
    rw [if_neg h]
  · intro r hr hid
    exact List.mem_map.mpr ⟨r, hr, by simp [hid]⟩

def c2Body : DB → Nat × Nat × DB := fun d => (7, 200, d)

/-- Witness for C2: cover-letter usage 0 of limit 5, successful body. -/
theorem commit_on_success_only_witness :
    (precheck Feature.cover_letter 1 ⟨2025, 7, 10⟩ "u1" "D" c1DB
        = PreResult.allow 2 0 5 c1DB
      ∧ c2Body c1DB = (7, 200, c1DB))
    ∧ ((200 ≤ 200 ∧ 200 < 300 →
        check_and_use_feature Feature.cover_letter 1 ⟨2025, 7, 10⟩ "u1" "D" c2Body c1DB
          = (GateResp.fromBody 7, 200, commitUsage c1DB 2 Feature.cover_letter (0 + 1)))
      ∧ (¬(200 ≤ 200 ∧ 200 < 300) →
        check_and_use_feature Feature.cover_letter 1 ⟨2025, 7, 10⟩ "u1" "D" c2Body c1DB
          = (GateResp.fromBody 7, 200, c1DB))
      ∧ ∀ r, r ∈ c1DB.feature_usage → (r.id == 2) = false →
          r ∈ (commitUsage c1DB 2 Feature.cover_letter (0 + 1)).feature_usage) :=
  ⟨⟨by decide, rfl⟩,
    commit_on_success_only Feature.cover_letter 1 ⟨2025, 7, 10⟩ "u1" "D" c1DB c1DB
      2 0 5 (by decide) c2Body 7 200 c1DB rfl⟩

/-! ## Claim C10: the commit is an absolute write -/

/-- A write of an arbitrary value v into the counter of the row keyed by
    usage_id, standing for any concurrent mutation of that counter between
    the pre-check read and the commit. -/
def setCountById (db : DB) (usage_id : Nat) (feature : Feature) (v : Nat) : DB :=
  { db with feature_usage :=
      db.feature_usage.map (fun r =>
        if r.id == usage_id then r.setCount feature v else r) }

/-- The stored counter of the feature_usage row keyed by usage_id. -/
def usageCountById (db : DB) (usage_id : Nat) (feature : Feature) : Option Nat :=
  (db.feature_usage.find? (fun r => r.id == usage_id)).map (fun r => r.countOf feature)

lemma setCount_id (r : UsageRow) (f : Feature) (v : Nat) :
    (r.setCount f v).id = r.id := by
  cases f <;> rfl

lemma countOf_setCount (r : UsageRow) (f : Feature) (v : Nat) :
    (r.setCount f v).countOf f = v := by
  cases f <;> rfl

lemma find?_id_map_update (l : List UsageRow) (n : Nat) (g : UsageRow → UsageRow)
    (hg : ∀ r, (g r).id = r.id) :
    (l.map (fun r => if r.id == n then g r else r)).find? (fun r => r.id == n)
      = (l.find? (fun r => r.id == n)).map g := by
  induction l with
  | nil => rfl
  | cons a t ih =>
    rw [List.map_cons]
    show ((if (a.id == n) = true then g a else a)
          :: t.map (fun r => if r.id == n then g r else r)).find? (fun r => r.id == n)
        = ((a :: t).find? (fun r => r.id == n)).map g
    by_cases ha : (a.id == n) = true
    · have h2 : ((g a).id == n) = true := by rw [hg a]; exact ha
      rw [if_pos ha]
      simp [List.find?_cons, h2, ha]
    · rw [if_neg ha]
      have hb : (a.id == n) = false := by
        cases hx : (a.id == n) with
        | true => exact absurd hx ha
        | false => rfl
      simp only [List.find?_cons, hb]
      exact ih

/-- Claim C10: the commit writes the absolute value current_usage +
    increment_by read during the pre-check; even if the counter is
    overwritten with an arbitrary value v between the pre-check read and
    the commit, the stored counter afterwards is the pre-check value plus
    the increment, for every v. -/
theorem commit_writes_absolute_value (feature : Feature) (increment_by : Nat)
    (today : PDate) (uid nm : String) (db db1 : DB)
    (usage_id current_usage plan_limit : Nat)
    (hpre : precheck feature increment_by today uid nm db
        = PreResult.allow usage_id current_usage plan_limit db1)
    (tag v : Nat) :
    usageCountById (check_and_use_feature feature increment_by today uid nm
        (fun d => (tag, 200, setCountById d usage_id feature v)) db).2.2 usage_id feature
      = (usageCountById db1 usage_id feature).map (fun _ => current_usage + increment_by) := by
  simp only [check_and_use_feature, hpre]
  rw [if_pos (by omega : 200 ≤ 200 ∧ 200 < 300)]
  unfold usageCountById commitUsage setCountById
  rw [find?_id_map_update _ _ _ (fun r => setCount_id r feature (current_usage + increment_by)),
    find?_id_map_update _ _ _ (fun r => setCount_id r feature v)]
  cases hf : db1.feature_usage.find? (fun r => r.id == usage_id) with
  | none => rfl
  | some w => simp [countOf_setCount]

/-- Witness for C10: the counter is overwritten with 99 between read and
    commit, yet the committed value is 0 + 1. -/
theorem commit_writes_absolute_value_witness :
    (precheck Feature.cover_letter 1 ⟨2025, 7, 10⟩ "u1" "D" c1DB
        = PreResult.allow 2 0 5 c1DB)
    ∧ usageCountById (check_and_use_feature Feature.cover_letter 1 ⟨2025, 7, 10⟩ "u1" "D"
        (fun d => (7, 200, setCountById d 2 Feature.cover_letter 99)) c1DB).2.2
        2 Feature.cover_letter
      = (usageCountById c1DB 2 Feature.cover_letter).map (fun _ => 0 + 1) :=
  ⟨by decide,
    commit_writes_absolute_value Feature.cover_letter 1 ⟨2025, 7, 10⟩ "u1" "D" c1DB c1DB
      2 0 5 (by decide) 7 99⟩

/-! ## Claim C7: lazy free-tier provisioning -/

/-- Inside a gated call whose body does not touch user_subscriptions, the
    subscriptions table ends exactly as the subscription-resolution step
    left it. -/
lemma precheck_subs (feature : Feature) (increment_by : Nat)
    (today : PDate) (uid nm : String) (db : DB) :
    (match precheck feature increment_by today uid nm db with
      | PreResult.err _ d => d
      | PreResult.deny _ _ d => d
      | PreResult.allow _ _ _ d => d).user_subscriptions
      = (resolveSub today uid nm db).2.user_subscriptions := by
  unfold precheck
  have hru := resolveUsage_user_subscriptions uid nm (resolveSub today uid nm db).1.plan_id
      (resolveSub today uid nm db).1.current_period_start
      (resolveSub today uid nm db).1.current_period_end (resolveSub today uid nm db).2
  cases hplan : (resolveSub today uid nm db).2.subscription_plans.find?
      (fun p => p.id == (resolveSub today uid nm db).1.plan_id) with
  | none => simp [hplan]
  | some plan =>
    by_cases hq : (resolveUsage uid nm (resolveSub today uid nm db).1.plan_id
        (resolveSub today uid nm db).1.current_period_start
        (resolveSub today uid nm db).1.current_period_end
        (resolveSub today uid nm db).2).1.countOf feature + increment_by
        > plan.limitOf feature
    · simp [hplan, hq, hru]
    · simp [hplan, hq, hru]

lemma check_subs_eq_resolveSub (feature : Feature) (increment_by : Nat)
    (today : PDate) (uid nm : String) (body : DB → Nat × Nat × DB) (db : DB)
    (hbody : ∀ d, ((body d).2.2).user_subscriptions = d.user_subscriptions) :
    ((check_and_use_feature feature increment_by today uid nm body db).2.2).user_subscriptions
      = (resolveSub today uid nm db).2.user_subscriptions := by
  have hp := precheck_subs feature increment_by today uid nm db
  cases hpr : precheck feature increment_by today uid nm db with
  | err c d =>
    rw [hpr] at hp
    simp only [check_and_use_feature, hpr]
    exact hp
  | deny l u d =>
    rw [hpr] at hp
    simp only [check_and_use_feature, hpr]
    exact hp
  | allow i u l d =>
    rw [hpr] at hp
    simp only [check_and_use_feature, hpr]
    by_cases hc : 200 ≤ (body d).2.1 ∧ (body d).2.1 < 300
    · rw [if_pos hc]
      show (commitUsage (body d).2.2 i feature (u + increment_by)).user_subscriptions
        = (resolveSub today uid nm db).2.user_subscriptions
      rw [commitUsage_user_subscriptions, hbody d]
      exact hp
    · rw [if_neg hc]
      show ((body d).2.2).user_subscriptions
        = (resolveSub today uid nm db).2.user_subscriptions
      rw [hbody d]
      exact hp

/-- Claim C7: a gated call by a user with no subscription row creates
    exactly one row — plan_id 1 (free tier), status free, period the
    current calendar month — and nothing else in the pipeline touches the
    subscriptions table. -/
theorem missing_subscription_created_free (feature : Feature) (increment_by : Nat)
    (today : PDate) (uid nm : String) (db : DB) (body : DB → Nat × Nat × DB)
    (hnone : db.user_subscriptions.find? (fun r => r.user_id == uid) = none)
    (hbody : ∀ d, ((body d).2.2).user_subscriptions = d.user_subscriptions) :
    ((check_and_use_feature feature increment_by today uid nm body db).2.2).user_subscriptions
      = db.user_subscriptions ++ [newFreeSub db.next_sub_id uid nm today]
    ∧ (newFreeSub db.next_sub_id uid nm today).plan_id = 1
    ∧ (newFreeSub db.next_sub_id uid nm today).status = "free"
    ∧ (newFreeSub db.next_sub_id uid nm today).current_period_start
        = ⟨today.year, today.month, 1⟩
    ∧ (newFreeSub db.next_sub_id uid nm today).current_period_end
        = get_last_day_of_month today := by
  refine ⟨?_, rfl, rfl, rfl, rfl⟩
  rw [check_subs_eq_resolveSub feature increment_by today uid nm body db hbody]
  simp only [resolveSub, hnone]

def c7DB : DB :=
  { user_subscriptions := []
    subscription_plans := [c1Plan]
    feature_usage := []
    next_sub_id := 1
    next_usage_id := 1 }

/-- Witness for C7: an empty store, identity body. -/
theorem missing_subscription_created_free_witness :
    (c7DB.user_subscriptions.find? (fun r => r.user_id == "u7") = none
      ∧ ∀ d : DB, ((c2Body d).2.2).user_subscriptions = d.user_subscriptions)
    ∧ (((check_and_use_feature Feature.resume 1 ⟨2025, 7, 10⟩ "u7" "D" c2Body c7DB).2.2).user_subscriptions
        = c7DB.user_subscriptions ++ [newFreeSub c7DB.next_sub_id "u7" "D" ⟨2025, 7, 10⟩]
      ∧ (newFreeSub c7DB.next_sub_id "u7" "D" ⟨2025, 7, 10⟩).plan_id = 1
      ∧ (newFreeSub c7DB.next_sub_id "u7" "D" ⟨2025, 7, 10⟩).status = "free"
      ∧ (newFreeSub c7DB.next_sub_id "u7" "D" ⟨2025, 7, 10⟩).current_period_start
          = ⟨2025, 7, 1⟩
      ∧ (newFreeSub c7DB.next_sub_id "u7" "D" ⟨2025, 7, 10⟩).current_period_end
          = get_last_day_of_month ⟨2025, 7, 10⟩) :=
  ⟨⟨rfl, fun d => rfl⟩,
    missing_subscription_created_free Feature.resume 1 ⟨2025, 7, 10⟩ "u7" "D" c7DB c2Body
      rfl (fun d => rfl)⟩

end Prepzo
